import Mathlib

/-!
Shallow embedding of `src/amethyst_rendy/src/plugins.rs`: the predefined
`RenderPlugin` implementations (`RenderToWindow`, `RenderBase3D`,
`RenderFlat2D`, `RenderDebugLines`, `RenderSkybox`) and the slice of the
`RenderPlan` interface they use.  The plugin code itself is translated
directly from the Rust source; the `RenderPlan`/`bundle` types it calls
into are not part of the source tree and are modelled from the spec
(each such definition is marked `Modelled from the spec:`).
-/

namespace Amethyst

/-- Modelled from the spec: the `ScreenDimensions` resource of
`amethyst_window` (not under `src/`): the current display dimensions.
Width and height are modelled as naturals. -/
structure ScreenDimensions where
  width : Nat
  height : Nat
deriving DecidableEq, Repr

/-- Modelled from the spec: `Target` from `bundle.rs` (not under `src/`):
a named render destination, a distinguished Main value plus arbitrary
named values. -/
inductive Target where
  | Main : Target
  | Custom (name : String) : Target
deriving DecidableEq, Repr

instance : Inhabited Target := ⟨Target.Main⟩

/-- Modelled from the spec: `RenderOrder` from `bundle.rs` (not under
`src/`): the totally-ordered sort key for passes within one target. -/
inductive RenderOrder where
  | BeforeOpaque : RenderOrder
  | Opaque : RenderOrder
  | AfterOpaque : RenderOrder
  | BeforeTransparent : RenderOrder
  | Transparent : RenderOrder
  | AfterTransparent : RenderOrder
deriving DecidableEq, Repr

/-- Image kind from `rendy::resource`; only the `D2` form is used by the
translated code (`Kind::D2(width, height, layers, samples)`). -/
inductive Kind where
  | D2 (width : Nat) (height : Nat) (layers : Nat) (samples : Nat) : Kind
deriving DecidableEq, Repr

/-- Image format from `rendy::hal`; only `D32Sfloat` is used by the
translated code. -/
inductive Format where
  | D32Sfloat : Format
deriving DecidableEq, Repr

/-- `ClearColor` from `rendy::hal::command`: four color components.
The `f32` components are modelled as rationals (exact for every constant
appearing in the source). -/
structure ClearColor where
  float32 : List Rat
deriving DecidableEq, Repr

/-- `ClearDepthStencil` from `rendy::hal::command`; `depth : f32` is
modelled as a rational (the source only ever uses the constant `0.0`). -/
structure ClearDepthStencil where
  depth : Rat
  stencil : Nat
deriving DecidableEq, Repr

/-- `ClearValue` from `rendy::hal::command`: a clear value is either a
color clear or a depth/stencil clear. -/
inductive ClearValue where
  | color (c : ClearColor) : ClearValue
  | depth_stencil (ds : ClearDepthStencil) : ClearValue
deriving DecidableEq, Repr

/-- Modelled from the spec: `ImageOptions` from `bundle.rs` (not under
`src/`): format/kind/levels/clear of an offscreen attachment. -/
structure ImageOptions where
  kind : Kind
  levels : Nat
  format : Format
  clear : Option ClearValue
deriving DecidableEq, Repr

/-- The window handle resource (`amethyst_window::Window`); opaque to the
translated code, which only passes it to the factory. -/
structure Window where
  id : Nat
deriving DecidableEq, Repr

/-- A surface created by the factory collaborator; opaque to the
translated code. -/
structure Surface where
  id : Nat
deriving DecidableEq, Repr

/-- `amethyst_error::Error`; opaque, compared only for identity. -/
structure Error where
  msg : String
deriving DecidableEq, Repr

/-- `DisplayConfig` from `amethyst_window`; opaque to the translated
code, which only hands it to `WindowBundle`. -/
structure DisplayConfig where
  id : Nat
deriving DecidableEq, Repr

/-- `palette::Srgb`: a color with three `f32` components, modelled as
rationals. -/
structure Srgb where
  red : Rat
  green : Rat
  blue : Rat
deriving DecidableEq, Repr

/-- The pass-definition strategy parameter `D : Base3DPassDef` of
`RenderBase3D`: the three instantiations exported by the source
(`FlatPassDef`, `ShadedPassDef`, `PbrPassDef`). -/
inductive Base3DPassDef where
  | Flat : Base3DPassDef
  | Shaded : Base3DPassDef
  | Pbr : Base3DPassDef
deriving DecidableEq, Repr

/-- Modelled from the spec: `PassGroupBuilder` is an opaque,
plugin-contributed unit of rendering work; each constructor records which
pass description built it, mirroring the `*.builder()` calls in the
source. -/
inductive PassGroupBuilder where
  | base3d (passDef : Base3DPassDef) (skinning : Bool) : PassGroupBuilder
  | base3dTransparent (passDef : Base3DPassDef) (skinning : Bool) : PassGroupBuilder
  | flat2d : PassGroupBuilder
  | flat2dTransparent : PassGroupBuilder
  | debugLines : PassGroupBuilder
  | skybox (colors : Option (Srgb × Srgb)) : PassGroupBuilder
deriving DecidableEq, Repr

/-- Modelled from the spec: `OutputColor` from `bundle.rs` (not under
`src/`): a color output is either "present to a surface" (surface handle
plus optional clear) or "render to an offscreen image". -/
inductive OutputColor where
  | Surface (surface : Surface) (clear : Option ClearValue) : OutputColor
  | Image (options : ImageOptions) : OutputColor
deriving DecidableEq, Repr

/-- Modelled from the spec: `TargetPlanOutputs` from `bundle.rs` (not
under `src/`): an ordered sequence of color outputs plus an optional
depth/stencil attachment. -/
structure TargetPlanOutputs where
  colors : List OutputColor
  depth : Option ImageOptions
deriving DecidableEq, Repr

/-- Modelled from the spec: the context handed to an `extend_target`
contribution when it is invoked at compile time; it accumulates
(RenderOrder, PassGroupBuilder) entries in registration order. -/
structure PassContext where
  entries : List (RenderOrder × PassGroupBuilder)
deriving DecidableEq, Repr

/-- Modelled from the spec: `ctx.add(order, builder)` appends one entry
for the target; appending itself does not fail (the `Result` return lets
a contribution abort the build). -/
def PassContext.add (ctx : PassContext) (order : RenderOrder)
    (builder : PassGroupBuilder) : Except Error PassContext :=
  .ok { entries := ctx.entries ++ [(order, builder)] }

/-- Modelled from the spec: `RenderPlan` owns the declared roots, the
target-to-outputs mapping populated by `define_pass`, and the deferred
per-target contributions registered by `extend_target`. -/
structure RenderPlan where
  roots : List Target
  outputs : List (Target × TargetPlanOutputs)
  extensions : List (Target × (PassContext → Except Error PassContext))

/-- The empty plan a rebuild cycle starts from. -/
def RenderPlan.empty : RenderPlan :=
  { roots := [], outputs := [], extensions := [] }

/-- Modelled from the spec: `add_root(target)` marks a target as a final
output; idempotent, adding the same root twice is not an error. -/
def RenderPlan.add_root (plan : RenderPlan) (target : Target) : RenderPlan :=
  if target ∈ plan.roots then plan
  else { plan with roots := plan.roots ++ [target] }

/-- Modelled from the spec: `define_pass(target, outputs)` registers the
attachment description for `target`; fails with a duplicate-target error
if `target` already has outputs defined in this plan instance. -/
def RenderPlan.define_pass (plan : RenderPlan) (target : Target)
    (outputs : TargetPlanOutputs) : Except Error RenderPlan :=
  if target ∈ plan.outputs.map Prod.fst then
    .error { msg := "duplicate target" }
  else
    .ok { plan with outputs := plan.outputs ++ [(target, outputs)] }

/-- Modelled from the spec: `extend_target(target, contribution)` appends
a deferred contribution for `target`; it never fails synchronously. -/
def RenderPlan.extend_target (plan : RenderPlan) (target : Target)
    (contribution : PassContext → Except Error PassContext) : RenderPlan :=
  { plan with extensions := plan.extensions ++ [(target, contribution)] }

/-- The `RenderToWindow` plugin state (translated from the source
struct): configured target, optional display config, cached screen
dimensions, the internal dirty flag, and the optional clear color. -/
structure RenderToWindow where
  target : Target
  config : Option DisplayConfig
  dimensions : Option ScreenDimensions
  dirty : Bool
  clear : Option ClearColor

/-- `RenderToWindow::default()`. -/
def RenderToWindow.default : RenderToWindow :=
  { target := Target.Main, config := none, dimensions := none,
    dirty := false, clear := none }

/-- `RenderToWindow::with_target`. -/
def RenderToWindow.with_target (self : RenderToWindow) (target : Target) :
    RenderToWindow :=
  { self with target := target }

/-- `RenderToWindow::should_rebuild`, translated from the source: it
reads the current `ScreenDimensions` resource (an `Option`, the resource
may be absent); if it differs from the cache it sets the dirty flag,
updates the cache and returns `false`; otherwise it returns the dirty
flag.  Returns the updated plugin state and the boolean result. -/
def RenderToWindow.should_rebuild (self : RenderToWindow)
    (new_dimensions : Option ScreenDimensions) : RenderToWindow × Bool :=
  if self.dimensions ≠ new_dimensions then
    ({ self with dirty := true, dimensions := new_dimensions }, false)
  else
    (self, self.dirty)

/-- Outcome of a `RenderToWindow::on_plan` call: a Rust panic (from an
`unwrap` on `None`), an error return (carrying the plugin state and the
plan as mutated so far), or success. -/
inductive PlanStep where
  | panic : PlanStep
  | err (self : RenderToWindow) (plan : RenderPlan) (e : Error) : PlanStep
  | ok (self : RenderToWindow) (plan : RenderPlan) : PlanStep

/-- The local `depth_options` value built inside
`RenderToWindow::on_plan` for cached dimensions `d`:
`Kind::D2(width, height, 1, 1)`, one level, `D32Sfloat`, cleared to
depth 0.0 / stencil 0. -/
def depth_options (d : ScreenDimensions) : ImageOptions :=
  { kind := Kind.D2 d.width d.height 1 1,
    levels := 1,
    format := Format.D32Sfloat,
    clear := some (ClearValue.depth_stencil { depth := 0, stencil := 0 }) }

/-- `RenderToWindow::on_plan`, translated from the source.  Arguments
beyond the plan: the factory's `create_surface` operation, the `Window`
resource (absent resource makes the `unwrap` panic), and the current
`ScreenDimensions` resource (passed in `resources` in Rust; the source
never reads it here, sizing comes from the cache). -/
def RenderToWindow.on_plan (self : RenderToWindow) (plan : RenderPlan)
    (create_surface : Window → Except Error Surface)
    (window : Option Window)
    (screen_dimensions : Option ScreenDimensions) : PlanStep :=
  let self1 := { self with dirty := false }
  match window with
  | none => PlanStep.panic
  | some w =>
    match create_surface w with
    | .error e => PlanStep.err self1 plan e
    | .ok surface =>
      match self.dimensions with
      | none => PlanStep.panic
      | some dims =>
        let plan1 := plan.add_root Target.Main
        match plan1.define_pass self.target
            { colors := [OutputColor.Surface surface
                (self.clear.map ClearValue.color)],
              depth := some (depth_options dims) } with
        | .error e => PlanStep.err self1 plan1 e
        | .ok plan2 => PlanStep.ok self1 plan2

/-- The `RenderBase3D<D>` plugin state; the type parameter
`D : Base3DPassDef` is represented by the `passDef` field. -/
structure RenderBase3D where
  target : Target
  skinning : Bool
  passDef : Base3DPassDef
deriving DecidableEq, Repr

/-- `RenderBase3D::on_plan`, translated from the source: extends the
configured target with a closure adding the opaque 3D pass and then the
transparent 3D pass, and returns `Ok`. -/
def RenderBase3D.on_plan (self : RenderBase3D) (plan : RenderPlan) :
    Except Error RenderPlan :=
  let skinning := self.skinning
  let passDef := self.passDef
  .ok (plan.extend_target self.target (fun ctx => do
    let ctx ← ctx.add RenderOrder.Opaque
      (PassGroupBuilder.base3d passDef skinning)
    let ctx ← ctx.add RenderOrder.Transparent
      (PassGroupBuilder.base3dTransparent passDef skinning)
    return ctx))

/-- The `RenderFlat2D` plugin state. -/
structure RenderFlat2D where
  target : Target
deriving DecidableEq, Repr

/-- `RenderFlat2D::on_plan`, translated from the source. -/
def RenderFlat2D.on_plan (self : RenderFlat2D) (plan : RenderPlan) :
    Except Error RenderPlan :=
  .ok (plan.extend_target self.target (fun ctx => do
    let ctx ← ctx.add RenderOrder.Opaque PassGroupBuilder.flat2d
    let ctx ← ctx.add RenderOrder.Transparent PassGroupBuilder.flat2dTransparent
    return ctx))

/-- The `RenderDebugLines` plugin state. -/
structure RenderDebugLines where
  target : Target
deriving DecidableEq, Repr

/-- `RenderDebugLines::on_plan`, translated from the source. -/
def RenderDebugLines.on_plan (self : RenderDebugLines) (plan : RenderPlan) :
    Except Error RenderPlan :=
  .ok (plan.extend_target self.target (fun ctx => do
    let ctx ← ctx.add RenderOrder.BeforeTransparent PassGroupBuilder.debugLines
    return ctx))

/-- The `RenderSkybox` plugin state. -/
structure RenderSkybox where
  target : Target
  colors : Option (Srgb × Srgb)
deriving DecidableEq, Repr

/-- `RenderSkybox::on_plan`, translated from the source: the closure
picks the builder from the configured colors and adds it at
`AfterOpaque`. -/
def RenderSkybox.on_plan (self : RenderSkybox) (plan : RenderPlan) :
    Except Error RenderPlan :=
  let colors := self.colors
  .ok (plan.extend_target self.target (fun ctx => do
    let group :=
      match colors with
      | some _ => PassGroupBuilder.skybox colors
      | none => PassGroupBuilder.skybox none
    let ctx ← ctx.add RenderOrder.AfterOpaque group
    return ctx))

/-- A factory whose `create_surface` always succeeds, returning a surface
tagged with the window id. -/
def okFactory : Window → Except Error Surface :=
  fun w => .ok { id := w.id }

/-- A factory whose `create_surface` always fails. -/
def failFactory : Window → Except Error Surface :=
  fun _ => .error { msg := "surface creation failed" }

/-- A `RenderToWindow` whose cache observed 800×600 and whose dirty flag
is set (the state after a `should_rebuild` call saw that size appear). -/
def rtw800 : RenderToWindow :=
  { target := Target.Main, config := none,
    dimensions := some { width := 800, height := 600 },
    dirty := true, clear := none }

/-- A `RenderToWindow` whose cache is still empty: no `should_rebuild`
call has observed a `ScreenDimensions` resource yet. -/
def rtwNoDims : RenderToWindow :=
  { target := Target.Main, config := none, dimensions := none,
    dirty := false, clear := none }

/-- The plan produced by a successful `on_plan` of a Main-targeted
plugin on the empty plan, with the cache at 800×600 and window id 0. -/
def plan800 : RenderPlan :=
  { roots := [Target.Main],
    outputs := [(Target.Main,
      { colors := [OutputColor.Surface { id := 0 } none],
        depth := some (depth_options { width := 800, height := 600 }) })],
    extensions := [] }

/-- The plan produced by a successful `on_plan` of a Main-targeted
plugin on the empty plan, with the cache at 1024×768 and window id 0. -/
def plan1024 : RenderPlan :=
  { roots := [Target.Main],
    outputs := [(Target.Main,
      { colors := [OutputColor.Surface { id := 0 } none],
        depth := some (depth_options { width := 1024, height := 768 }) })],
    extensions := [] }

/-- A `RenderToWindow` configured with a custom (non-Main) target via
`with_target`, its cache at 800×600. -/
def rtwOffscreen : RenderToWindow :=
  RenderToWindow.with_target
    { target := Target.Main, config := none,
      dimensions := some { width := 800, height := 600 },
      dirty := true, clear := none }
    (Target.Custom "offscreen")

/-- The plan produced by a successful `on_plan` of `rtwOffscreen` on the
empty plan: Main is rooted, but outputs exist only for the custom
target. -/
def planOffscreen : RenderPlan :=
  { roots := [Target.Main],
    outputs := [(Target.Custom "offscreen",
      { colors := [OutputColor.Surface { id := 0 } none],
        depth := some (depth_options { width := 800, height := 600 }) })],
    extensions := [] }

end Amethyst

namespace Amethyst

/-- `add_root` never touches the outputs map. -/
theorem add_root_outputs (plan : RenderPlan) (t : Target) :
    (plan.add_root t).outputs = plan.outputs := by
  unfold RenderPlan.add_root
  split <;> rfl

/-- `add_root` never touches the extensions list. -/
theorem add_root_extensions (plan : RenderPlan) (t : Target) :
    (plan.add_root t).extensions = plan.extensions := by
  unfold RenderPlan.add_root
  split <;> rfl

/-- After `add_root t`, the target `t` is among the roots. -/
theorem mem_add_root_roots (plan : RenderPlan) (t : Target) :
    t ∈ (plan.add_root t).roots := by
  unfold RenderPlan.add_root
  split
  · assumption
  · simp

/-- Inversion for a successful `RenderToWindow::on_plan` call: the
returned plugin state is the input with the dirty flag cleared, the
window resource was present, surface creation succeeded, the cache held
some dimensions, and the returned plan is the input plan with `Main`
rooted and the configured target defined with a surface color output and
a depth attachment sized from the cache. -/
theorem on_plan_ok_inv (self : RenderToWindow) (plan : RenderPlan)
    (cs : Window → Except Error Surface) (win : Option Window)
    (sd : Option ScreenDimensions) (self' : RenderToWindow)
    (plan' : RenderPlan)
    (h : self.on_plan plan cs win sd = PlanStep.ok self' plan') :
    self' = { self with dirty := false } ∧
    ∃ w s d, win = some w ∧ cs w = .ok s ∧ self.dimensions = some d ∧
      plan' = { plan.add_root Target.Main with
        outputs := plan.outputs ++
          [(self.target,
            { colors := [OutputColor.Surface s
                (self.clear.map ClearValue.color)],
              depth := some (depth_options d) })] } := by
  unfold RenderToWindow.on_plan at h
  cases win with
  | none => cases h
  | some w =>
    dsimp only at h
    cases hcs : cs w with
    | error e => rw [hcs] at h; cases h
    | ok s =>
      rw [hcs] at h
      cases hd : self.dimensions with
      | none => rw [hd] at h; cases h
      | some d =>
        rw [hd] at h
        dsimp only at h
        unfold RenderPlan.define_pass at h
        rw [add_root_outputs] at h
        split at h
        · cases h
        · cases h
          rename_i hif
          refine ⟨rfl, w, s, d, rfl, hcs, rfl, ?_⟩
          split at hif
          · cases hif
          · cases hif
            rfl

/-- Inversion for an error-returning `RenderToWindow::on_plan` call:
the returned plugin state is the input with the dirty flag cleared. -/
theorem on_plan_err_inv (self : RenderToWindow) (plan : RenderPlan)
    (cs : Window → Except Error Surface) (win : Option Window)
    (sd : Option ScreenDimensions) (self' : RenderToWindow)
    (plan' : RenderPlan) (e : Error)
    (h : self.on_plan plan cs win sd = PlanStep.err self' plan' e) :
    self' = { self with dirty := false } := by
  unfold RenderToWindow.on_plan at h
  cases win with
  | none => cases h
  | some w =>
    dsimp only at h
    cases hcs : cs w with
    | error e2 =>
      rw [hcs] at h
      cases h
      rfl
    | ok s =>
      rw [hcs] at h
      cases hd : self.dimensions with
      | none => rw [hd] at h; cases h
      | some d =>
        rw [hd] at h
        dsimp only at h
        split at h
        · cases h; rfl
        · cases h

/-- `should_rebuild` polled with the dimensions it already has cached
returns the dirty flag and changes nothing. -/
theorem should_rebuild_same (self : RenderToWindow) :
    self.should_rebuild self.dimensions = (self, self.dirty) := by
  unfold RenderToWindow.should_rebuild
  simp

/-- Claim C1: in every `should_rebuild` call where the current
`ScreenDimensions` resource differs from the cached dimensions, the call
updates the cache to the new value, sets the dirty flag and returns
`false`; and the call returns `true` exactly when the dimensions are
unchanged from the cache and the dirty flag is already set. -/
theorem should_rebuild_spec (self : RenderToWindow)
    (nd : Option ScreenDimensions) :
    (self.dimensions ≠ nd →
      (self.should_rebuild nd).1.dimensions = nd ∧
      (self.should_rebuild nd).1.dirty = true ∧
      (self.should_rebuild nd).2 = false) ∧
    ((self.should_rebuild nd).2 = true ↔
      self.dimensions = nd ∧ self.dirty = true) := by
  unfold RenderToWindow.should_rebuild
  by_cases h : self.dimensions = nd
  · simp [h]
  · simp [h]

/-- Witness for C1 at a concrete plugin state and resource value. -/
theorem should_rebuild_spec_witness :
    (RenderToWindow.should_rebuild
        { target := Target.Main, config := none,
          dimensions := some { width := 800, height := 600 },
          dirty := false, clear := none }
        (some { width := 1024, height := 768 })).1.dimensions
      = some { width := 1024, height := 768 } ∧
    (RenderToWindow.should_rebuild
        { target := Target.Main, config := none,
          dimensions := some { width := 800, height := 600 },
          dirty := false, clear := none }
        (some { width := 1024, height := 768 })).1.dirty = true ∧
    (RenderToWindow.should_rebuild
        { target := Target.Main, config := none,
          dimensions := some { width := 800, height := 600 },
          dirty := false, clear := none }
        (some { width := 1024, height := 768 })).2 = false :=
  (should_rebuild_spec
    { target := Target.Main, config := none,
      dimensions := some { width := 800, height := 600 },
      dirty := false, clear := none }
    (some { width := 1024, height := 768 })).1 (by decide)

/-- Claim C2 counterexample: with the cache holding 800×600 and the
current `ScreenDimensions` resource reading 1024×768, `on_plan`
succeeds and the depth attachment is sized 800×600 from the cache —
not equal to the current external display dimensions at the time
`on_plan` runs. -/
theorem on_plan_stale_cache_counterexample :
    RenderToWindow.on_plan rtw800 RenderPlan.empty okFactory
        (some { id := 0 }) (some { width := 1024, height := 768 })
      = PlanStep.ok { rtw800 with dirty := false } plan800 ∧
    (depth_options { width := 800, height := 600 }).kind
      ≠ Kind.D2 1024 768 1 1 := by
  constructor
  · rfl
  · decide

/-- Claim C2 (amended): in every successful `on_plan` call, the depth
attachment's dimensions are the plugin's cached dimensions — the cache
filled by earlier `should_rebuild` calls — not a value queried from the
`ScreenDimensions` resource during `on_plan` (which `on_plan` never
reads). -/
theorem on_plan_depth_from_cache (self : RenderToWindow) (plan : RenderPlan)
    (cs : Window → Except Error Surface) (win : Option Window)
    (sd : Option ScreenDimensions) (self' : RenderToWindow)
    (plan' : RenderPlan)
    (h : self.on_plan plan cs win sd = PlanStep.ok self' plan') :
    ∃ d s, self.dimensions = some d ∧
      plan'.outputs = plan.outputs ++
        [(self.target,
          { colors := [OutputColor.Surface s
              (self.clear.map ClearValue.color)],
            depth := some (depth_options d) })] ∧
      (depth_options d).kind = Kind.D2 d.width d.height 1 1 := by
  obtain ⟨-, w, s, d, -, -, hd, hplan⟩ :=
    on_plan_ok_inv self plan cs win sd self' plan' h
  exact ⟨d, s, hd, by rw [hplan], rfl⟩

/-- Witness for the amended C2 at a concrete successful call. -/
theorem on_plan_depth_from_cache_witness :
    ∃ d s, rtw800.dimensions = some d ∧
      plan800.outputs = RenderPlan.empty.outputs ++
        [(rtw800.target,
          { colors := [OutputColor.Surface s
              (rtw800.clear.map ClearValue.color)],
            depth := some (depth_options d) })] ∧
      (depth_options d).kind = Kind.D2 d.width d.height 1 1 :=
  on_plan_depth_from_cache rtw800 RenderPlan.empty okFactory
    (some { id := 0 }) (some { width := 1024, height := 768 })
    { rtw800 with dirty := false } plan800 rfl

/-- Claim C3: after the cache observed 800×600, one `should_rebuild`
poll seeing 1024×768 reports not-dirty while recording the change, the
next poll with unchanged dimensions reports dirty, and any successful
`on_plan` after the first poll defines a depth attachment of kind
`D2 1024 768 1 1`, not `D2 800 600 1 1`. -/
theorem resize_round_trip (self : RenderToWindow) (plan : RenderPlan)
    (cs : Window → Except Error Surface) (win : Option Window)
    (sd : Option ScreenDimensions) (self' : RenderToWindow)
    (plan' : RenderPlan)
    (h800 : self.dimensions = some { width := 800, height := 600 })
    (hok : (self.should_rebuild
        (some { width := 1024, height := 768 })).1.on_plan
        plan cs win sd = PlanStep.ok self' plan') :
    (self.should_rebuild (some { width := 1024, height := 768 })).2
      = false ∧
    (RenderToWindow.should_rebuild
        (self.should_rebuild (some { width := 1024, height := 768 })).1
        (some { width := 1024, height := 768 })).2
      = true ∧
    ∃ s, plan'.outputs = plan.outputs ++
        [(self.target,
          { colors := [OutputColor.Surface s
              (self.clear.map ClearValue.color)],
            depth := some (depth_options { width := 1024, height := 768 }) })] ∧
      (depth_options { width := 1024, height := 768 }).kind
        = Kind.D2 1024 768 1 1 ∧
      Kind.D2 1024 768 1 1 ≠ Kind.D2 800 600 1 1 := by
  have hne : self.dimensions ≠ some { width := 1024, height := 768 } := by
    rw [h800]; simp
  have hpoll : self.should_rebuild (some { width := 1024, height := 768 })
      = ({ self with
            dirty := true,
            dimensions := some { width := 1024, height := 768 } },
          false) := by
    unfold RenderToWindow.should_rebuild
    rw [if_pos hne]
  refine ⟨by rw [hpoll], ?_, ?_⟩
  · rw [hpoll]
    unfold RenderToWindow.should_rebuild
    simp
  · obtain ⟨-, w, s, d, -, -, hd, hplan⟩ :=
      on_plan_ok_inv _ plan cs win sd self' plan' hok
    rw [hpoll] at hd hplan
    simp only at hd
    cases hd
    refine ⟨s, by rw [hplan], rfl, by decide⟩

/-- Witness for C3 at a concrete plugin state, poll and `on_plan` run. -/
theorem resize_round_trip_witness :
    (rtw800.should_rebuild (some { width := 1024, height := 768 })).2
      = false ∧
    (RenderToWindow.should_rebuild
        (rtw800.should_rebuild (some { width := 1024, height := 768 })).1
        (some { width := 1024, height := 768 })).2
      = true ∧
    ∃ s, plan1024.outputs = RenderPlan.empty.outputs ++
        [(rtw800.target,
          { colors := [OutputColor.Surface s
              (rtw800.clear.map ClearValue.color)],
            depth := some (depth_options { width := 1024, height := 768 }) })] ∧
      (depth_options { width := 1024, height := 768 }).kind
        = Kind.D2 1024 768 1 1 ∧
      Kind.D2 1024 768 1 1 ≠ Kind.D2 800 600 1 1 :=
  resize_round_trip rtw800 RenderPlan.empty okFactory (some { id := 0 })
    (some { width := 1024, height := 768 })
    { target := Target.Main, config := none,
      dimensions := some { width := 1024, height := 768 },
      dirty := false, clear := none }
    plan1024 rfl rfl

/-- Claim C4: every `on_plan` call that returns — with success or with
an error — leaves the dirty flag cleared, so an immediately following
`should_rebuild` call with unchanged dimensions returns `false`. -/
theorem on_plan_clears_dirty (self : RenderToWindow) (plan : RenderPlan)
    (cs : Window → Except Error Surface) (win : Option Window)
    (sd : Option ScreenDimensions) :
    (∀ self' plan',
      self.on_plan plan cs win sd = PlanStep.ok self' plan' →
      self'.dirty = false ∧
      (self'.should_rebuild self'.dimensions).2 = false) ∧
    (∀ self' plan' e,
      self.on_plan plan cs win sd = PlanStep.err self' plan' e →
      self'.dirty = false ∧
      (self'.should_rebuild self'.dimensions).2 = false) := by
  constructor
  · intro self' plan' h
    obtain ⟨hself, -⟩ := on_plan_ok_inv self plan cs win sd self' plan' h
    subst hself
    exact ⟨rfl, by rw [should_rebuild_same]⟩
  · intro self' plan' e h
    have hself := on_plan_err_inv self plan cs win sd self' plan' e h
    subst hself
    exact ⟨rfl, by rw [should_rebuild_same]⟩

/-- Witness for C4 at a concrete successful `on_plan` call. -/
theorem on_plan_clears_dirty_witness :
    ({ rtw800 with dirty := false } : RenderToWindow).dirty = false ∧
    (({ rtw800 with dirty := false } : RenderToWindow).should_rebuild
        ({ rtw800 with dirty := false } : RenderToWindow).dimensions).2
      = false :=
  (on_plan_clears_dirty rtw800 RenderPlan.empty okFactory
      (some { id := 0 }) (some { width := 1024, height := 768 })).1
    { rtw800 with dirty := false } plan800 rfl

/-- Claim C5: `RenderBase3D::on_plan` and `RenderFlat2D::on_plan` each
register, via `extend_target` on the plugin's configured target, exactly
one deferred contribution, whose closure adds exactly two entries in
this order: one at `Opaque`, then one at `Transparent`. -/
theorem base3d_flat2d_two_entries (b3 : RenderBase3D) (f2 : RenderFlat2D)
    (p1 p2 : RenderPlan) :
    (∃ f, b3.on_plan p1 = .ok
        { p1 with extensions := p1.extensions ++ [(b3.target, f)] } ∧
      ∀ ctx, f ctx = .ok { entries := ctx.entries ++
        [(RenderOrder.Opaque,
          PassGroupBuilder.base3d b3.passDef b3.skinning),
         (RenderOrder.Transparent,
          PassGroupBuilder.base3dTransparent b3.passDef b3.skinning)] }) ∧
    (∃ f, f2.on_plan p2 = .ok
        { p2 with extensions := p2.extensions ++ [(f2.target, f)] } ∧
      ∀ ctx, f ctx = .ok { entries := ctx.entries ++
        [(RenderOrder.Opaque, PassGroupBuilder.flat2d),
         (RenderOrder.Transparent, PassGroupBuilder.flat2dTransparent)] }) := by
  constructor
  · refine ⟨_, rfl, fun ctx => ?_⟩
    show Except.ok
        ({ entries := (ctx.entries ++ [(RenderOrder.Opaque,
            PassGroupBuilder.base3d b3.passDef b3.skinning)]) ++
          [(RenderOrder.Transparent,
            PassGroupBuilder.base3dTransparent b3.passDef b3.skinning)] }
          : PassContext) = _
    rw [List.append_assoc]
    rfl
  · refine ⟨_, rfl, fun ctx => ?_⟩
    show Except.ok
        ({ entries := (ctx.entries ++
            [(RenderOrder.Opaque, PassGroupBuilder.flat2d)]) ++
          [(RenderOrder.Transparent, PassGroupBuilder.flat2dTransparent)] }
          : PassContext) = _
    rw [List.append_assoc]
    rfl

/-- Claim C6: `RenderDebugLines::on_plan` registers exactly one
contribution whose closure adds exactly one entry at
`BeforeTransparent`; `RenderSkybox::on_plan` registers exactly one
contribution whose closure adds exactly one entry at `AfterOpaque` —
each on the plugin's configured target. -/
theorem debuglines_skybox_single_entry (dl : RenderDebugLines)
    (sb : RenderSkybox) (p1 p2 : RenderPlan) :
    (∃ f, dl.on_plan p1 = .ok
        { p1 with extensions := p1.extensions ++ [(dl.target, f)] } ∧
      ∀ ctx, f ctx = .ok { entries := ctx.entries ++
        [(RenderOrder.BeforeTransparent, PassGroupBuilder.debugLines)] }) ∧
    (∃ f, sb.on_plan p2 = .ok
        { p2 with extensions := p2.extensions ++ [(sb.target, f)] } ∧
      ∀ ctx, f ctx = .ok { entries := ctx.entries ++
        [(RenderOrder.AfterOpaque, PassGroupBuilder.skybox sb.colors)] }) := by
  constructor
  · exact ⟨_, rfl, fun ctx => rfl⟩
  · obtain ⟨t, c⟩ := sb
    refine ⟨_, rfl, fun ctx => ?_⟩
    cases c <;> rfl

/-- Claim C7: when the factory's `create_surface` fails inside
`RenderToWindow::on_plan`, the call returns exactly that error, and the
plan comes back exactly as it went in: no `define_pass` and no
`add_root` registration happened. -/
theorem on_plan_surface_error (self : RenderToWindow) (plan : RenderPlan)
    (cs : Window → Except Error Surface) (w : Window)
    (sd : Option ScreenDimensions) (e : Error)
    (h : cs w = .error e) :
    self.on_plan plan cs (some w) sd
      = PlanStep.err { self with dirty := false } plan e := by
  unfold RenderToWindow.on_plan
  dsimp only
  rw [h]

/-- Witness for C7 at a concrete failing factory. -/
theorem on_plan_surface_error_witness :
    RenderToWindow.on_plan rtw800 RenderPlan.empty failFactory
        (some { id := 0 }) none
      = PlanStep.err { rtw800 with dirty := false } RenderPlan.empty
          { msg := "surface creation failed" } :=
  on_plan_surface_error rtw800 RenderPlan.empty failFactory { id := 0 }
    none { msg := "surface creation failed" } rfl

/-- Claim C8: the pass-only plugins (`RenderBase3D` — hence
`RenderFlat3D`, `RenderShaded3D`, `RenderPbr3D` —, `RenderFlat2D`,
`RenderDebugLines`, `RenderSkybox`) always return `Ok` from `on_plan`,
for every target and plugin state: `extend_target` never fails
synchronously. -/
theorem pass_plugins_always_ok (b3 : RenderBase3D) (f2 : RenderFlat2D)
    (dl : RenderDebugLines) (sb : RenderSkybox)
    (p1 p2 p3 p4 : RenderPlan) :
    (∃ q, b3.on_plan p1 = .ok q) ∧ (∃ q, f2.on_plan p2 = .ok q) ∧
    (∃ q, dl.on_plan p3 = .ok q) ∧ (∃ q, sb.on_plan p4 = .ok q) :=
  ⟨⟨_, rfl⟩, ⟨_, rfl⟩, ⟨_, rfl⟩, ⟨_, rfl⟩⟩

/-- Claim C9: every successful `RenderToWindow::on_plan` adds
`Target::Main` as a root, whatever target the plugin was configured
with; the outputs it defines are for the configured target (the only
target gaining a definition is `self.target`). -/
theorem on_plan_roots_main (self : RenderToWindow) (plan : RenderPlan)
    (cs : Window → Except Error Surface) (win : Option Window)
    (sd : Option ScreenDimensions) (self' : RenderToWindow)
    (plan' : RenderPlan)
    (h : self.on_plan plan cs win sd = PlanStep.ok self' plan') :
    Target.Main ∈ plan'.roots ∧
    plan'.outputs.map Prod.fst
      = plan.outputs.map Prod.fst ++ [self.target] := by
  obtain ⟨-, w, s, d, -, -, -, hplan⟩ :=
    on_plan_ok_inv self plan cs win sd self' plan' h
  constructor
  · rw [hplan]
    exact mem_add_root_roots plan Target.Main
  · rw [hplan]
    simp

/-- Witness for C9: a plugin configured with a custom target still roots
`Main`, while defining outputs only for the custom target. -/
theorem on_plan_roots_main_witness :
    Target.Main ∈ planOffscreen.roots ∧
    planOffscreen.outputs.map Prod.fst
      = RenderPlan.empty.outputs.map Prod.fst ++ [rtwOffscreen.target] :=
  on_plan_roots_main rtwOffscreen RenderPlan.empty okFactory
    (some { id := 0 }) none { rtwOffscreen with dirty := false }
    planOffscreen rfl

/-- Claim C10 counterexample: with the Window resource present, the
cached dimensions still `none` (no prior `should_rebuild` observed a
`ScreenDimensions` resource), and a factory whose `create_surface`
fails, `on_plan` does not panic — it returns the surface error. -/
theorem on_plan_no_dims_no_panic_counterexample :
    rtwNoDims.dimensions = none ∧
    RenderToWindow.on_plan rtwNoDims RenderPlan.empty failFactory
        (some { id := 0 }) none
      = PlanStep.err { rtwNoDims with dirty := false } RenderPlan.empty
          { msg := "surface creation failed" } ∧
    RenderToWindow.on_plan rtwNoDims RenderPlan.empty failFactory
        (some { id := 0 }) none ≠ PlanStep.panic := by
  refine ⟨rfl, rfl, fun hcontra => ?_⟩
  exact PlanStep.noConfusion hcontra

/-- Claim C10 (amended): `on_plan` panics exactly when the Window
resource is absent, or when the window is present, surface creation
succeeds, and the cached dimensions are `none`; in particular, with the
window present and dimensions cached the `unwrap` branches are
unreachable, and with dimensions `none` but failing surface creation it
returns the error rather than panicking. -/
theorem on_plan_panic_iff (self : RenderToWindow) (plan : RenderPlan)
    (cs : Window → Except Error Surface) (win : Option Window)
    (sd : Option ScreenDimensions) :
    self.on_plan plan cs win sd = PlanStep.panic ↔
      win = none ∨
      ∃ w s, win = some w ∧ cs w = Except.ok s ∧
        self.dimensions = none := by
  constructor
  · intro h
    unfold RenderToWindow.on_plan at h
    cases win with
    | none => exact Or.inl rfl
    | some w =>
      dsimp only at h
      cases hcs : cs w with
      | error e => rw [hcs] at h; cases h
      | ok s =>
        rw [hcs] at h
        cases hd : self.dimensions with
        | none => exact Or.inr ⟨w, s, rfl, hcs, rfl⟩
        | some d =>
          rw [hd] at h
          dsimp only at h
          split at h
          · cases h
          · cases h
  · intro h
    rcases h with h | ⟨w, s, hw, hcs, hd⟩
    · subst h; rfl
    · subst hw
      unfold RenderToWindow.on_plan
      dsimp only
      rw [hcs, hd]

end Amethyst
